import Mathlib

/-!
# Verification of the log-search tool core against its specification

This file gives a shallow embedding, in Lean 4, of the core components of the
`log-search-tool` repository (the migrated `app/` tree is the authority):

* `app/models/__init__.py`           — `SearchParams`, `SearchResult`, `MultiHostSearchResult`
* `app/services/log/search.py`       — `LogSearchService` (multi-host log search)
* `app/services/ssh/manager.py`      — `SSHConnectionManager` (connection pool)
* `app/services/utils/filename_resolver.py` — date / slice placeholder resolution
* `app/services/utils/encoding.py`   — `smart_decode` signature (keyword interface)
* `app/services/terminal/service.py` — terminal sessions, output reader, close events

Remote I/O (SSH connect, command execution) is modelled by an explicit oracle
(`Remote`), and all process state (connection pool, caches, the trace of remote
calls) by an explicit `World` record threaded through the functions.  Python
exceptions are modelled by `Except PyError`.  Python dynamic-call semantics
(unknown keyword arguments, missing attributes raise `TypeError` /
`AttributeError`) are modelled by explicit field-name lists taken verbatim from
the source, checked by `pyCheckKwargs` / attribute-read definitions.
-/

namespace LogTool

/-- Python exception kinds that the embedded code can raise.  The payload is the
`str(e)` message. -/
inductive PyError where
  | typeError (msg : String)
  | attributeError (msg : String)
  | valueError (msg : String)
  | runtimeError (msg : String)
  deriving DecidableEq, Repr

/-- `str(e)` of a Python exception: the message it carries. -/
def PyError.msg : PyError → String
  | .typeError m => m
  | .attributeError m => m
  | .valueError m => m
  | .runtimeError m => m

/-- The single-quote character, built from its code point so that shell command
strings can be assembled without quote characters in the source text. -/
def sq : String := String.singleton (Char.ofNat 39)

/-- Python `TypeError` raised when a call passes a keyword argument the callee
does not accept: the first passed name not in the accepted list is reported.
`accepted` is the parameter-name list of the callee, `passed` holds the keyword
names at the call site; both are written out verbatim from the source at each use. -/
def pyCheckKwargs (funcName : String) (accepted passed : List String) :
    Except PyError Unit :=
  match passed.find? (fun p => !(accepted.contains p)) with
  | some bad =>
      .error (.typeError (funcName ++ "() got an unexpected keyword argument " ++ sq ++ bad ++ sq))
  | none => .ok ()

/-! ## Character / string helpers (Python `str` operations on `List Char`) -/

/-- Python `str.isspace` for the ASCII whitespace Python strips by default. -/
def isSpaceChar (c : Char) : Bool :=
  c = ' ' || c = '\t' || c = '\n' || c = '\r' || c = Char.ofNat 11 || c = Char.ofNat 12

/-- Python `str.strip()` on a character list. -/
def pyStripList (s : List Char) : List Char :=
  ((s.dropWhile isSpaceChar).reverse.dropWhile isSpaceChar).reverse

/-- Python `str.strip()`. -/
def pyStrip (s : String) : String := String.mk (pyStripList s.data)

/-- Does `needle` occur as a contiguous sublist of `hay`?  (Python `in` on str.) -/
def listContainsSub (hay needle : List Char) : Bool :=
  match hay with
  | [] => needle.isEmpty
  | _ :: rest => needle.isPrefixOf hay || listContainsSub rest needle

/-- Python `needle in hay` for strings. -/
def strContains (hay needle : String) : Bool :=
  listContainsSub hay.data needle.data

/-- Fuel-driven worker for `splitOnList` (structural recursion so that closed
evaluations reduce in the kernel).  The fuel bounds the number of characters
consumed; `splitOnList` supplies enough for the fuel never to run out. -/
def splitOnListAux (sep : List Char) : Nat → List Char → List (List Char)
  | 0, s => [s]
  | fuel + 1, s =>
      match s with
      | [] => [[]]
      | c :: rest =>
          if !sep.isEmpty && sep.isPrefixOf (c :: rest) then
            [] :: splitOnListAux sep fuel ((c :: rest).drop sep.length)
          else
            match splitOnListAux sep fuel rest with
            | [] => [[c]]
            | grp :: grps => (c :: grp) :: grps

/-- Split a character list at every (non-overlapping, leftmost) occurrence of
`sep` (Python `str.split(sep)` for a non-empty separator). -/
def splitOnList (sep s : List Char) : List (List Char) :=
  splitOnListAux sep (s.length + 1) s

/-- Python `s.split(sep)` for strings, non-empty `sep`. -/
def pySplit (s sep : String) : List String :=
  (splitOnList sep.data s.data).map String.mk

/-- Python `s.replace(old, new)` (all occurrences), for non-empty `old`. -/
def pyReplace (s old new : String) : String :=
  String.mk (((splitOnList old.data s.data).map String.mk).intersperse new |>.foldl
    (fun acc p => acc ++ p.data) [])

/-- Python `s.count(sub)` — number of non-overlapping occurrences. -/
def pyCountSub (s sub : String) : Nat :=
  (splitOnList sub.data s.data).length - 1

/-- Python `str.lstrip(chars)` for a single strip character. -/
def pyLstripChar (s : String) (c : Char) : String :=
  String.mk (s.data.dropWhile (fun x => x = c))

/-- Python `str.lstrip()` (whitespace). -/
def pyLstrip (s : String) : String :=
  String.mk (s.data.dropWhile isSpaceChar)

/-- Digits-only parse (used where the source applies `int(...)` to a string that
the surrounding regex guarantees is a non-empty digit run). -/
def digitsToNat (s : List Char) : Nat :=
  s.foldl (fun acc c => acc * 10 + (c.toNat - 48)) 0

/-- Python `str.endswith`. -/
def pyEndsWith (s suffixStr : String) : Bool :=
  suffixStr.data.isSuffixOf s.data

/-- Python `os.path.dirname`: everything before the last `/` (empty when no `/`). -/
def osPathDirname (s : String) : String :=
  match (splitOnList ['/'] s.data).reverse with
  | [] => s
  | [_] => ""
  | _ :: revInit =>
      String.mk ((revInit.reverse.map String.mk).intersperse "/" |>.foldl
        (fun acc p => acc ++ p.data) [])

/-- Python `os.path.basename`: everything after the last `/`. -/
def osPathBasename (s : String) : String :=
  match (splitOnList ['/'] s.data).reverse with
  | [] => s
  | last :: _ => String.mk last

/-! ## Data model (`app/models/__init__.py`) -/

/-- `SearchParams` dataclass, mirrored field-for-field from
`app/models/__init__.py` lines 39-48.  Note: the dataclass declares **no**
`max_lines` field — see `searchParamsFields` and `SearchParams.maxLinesAttr`. -/
structure SearchParams where
  keyword : String := ""
  search_mode : String := "keyword"
  context_span : Int := 5
  use_regex : Bool := false
  reverse_order : Bool := false
  use_file_filter : Bool := false
  selected_file : Option String := none
  selected_files : Option (List (String × String)) := none
  deriving DecidableEq, Repr

/-- The complete field list of the `SearchParams` dataclass
(`app/models/__init__.py` lines 41-48). -/
def searchParamsFields : List String :=
  ["keyword", "search_mode", "context_span", "use_regex", "reverse_order",
   "use_file_filter", "selected_file", "selected_files"]

/-- `SearchParams.validate` (`app/models/__init__.py` lines 50-59): collects
error strings for `context_span` outside `[0, 50]` and `search_mode` outside
the three valid modes, then raises `ValueError` joining them. -/
def SearchParams.validate (sp : SearchParams) : Except PyError Unit :=
  let errors : List String :=
    (if sp.context_span < 0 || sp.context_span > 50 then
      ["上下文行数必须在 0-50 之间，当前值: " ++ toString sp.context_span]
    else []) ++
    (if ["keyword", "context", "tail"].contains sp.search_mode then []
    else ["搜索模式必须是 keyword/context/tail 之一，当前值: " ++ sp.search_mode])
  if errors.isEmpty then .ok ()
  else .error (.valueError ("参数验证失败: " ++ String.intercalate "; " errors))

/-- Python semantics of the attribute read `search_params.max_lines` at
`app/services/log/search.py` line 168: the `SearchParams` dataclass declares
exactly the fields in `searchParamsFields`, and `max_lines` is not among them,
so the read raises `AttributeError` (Python semantics for a missing dataclass
attribute).  The `.ok` branch is the shape the read would have if the field
existed; it is unreachable for the actual field list. -/
def SearchParams.maxLinesAttr (_sp : SearchParams) : Except PyError (Option Nat) :=
  if searchParamsFields.contains "max_lines" then .ok none
  else .error (.attributeError ("SearchParams object has no attribute " ++ sq ++ "max_lines" ++ sq))

/-- One entry of the `matches` list produced by `_parse_grep_output`. -/
structure MatchEntry where
  file_path : String
  line_number : Option Nat
  content : String
  deriving DecidableEq, Repr

/-- The `search_result` dict attached to a per-host `SearchResult`.  Keys that
the failure path omits are modelled as `Option` (absent = `none`). -/
structure SearchInfo where
  content : String := ""
  file_path : String := ""
  keyword : String := ""
  total_lines : Nat := 0
  original_total_lines : Option Nat := none
  truncated : Option Bool := none
  search_time : Int := 0
  matches_ : List MatchEntry := []   -- dict key: matches (a Lean keyword)
  encoding_used : Option String := none
  deriving DecidableEq, Repr

/-- `SearchResult` dataclass (`app/models/__init__.py` lines 62-71).
Times are modelled at a fixed clock, so durations are `0`. -/
structure SearchResult where
  host : String
  ssh_index : Nat
  results : List String
  total_results : Nat
  search_time : Int
  search_result : SearchInfo
  success : Bool
  error : Option String := none
  deriving DecidableEq, Repr

/-- `MultiHostSearchResult` dataclass (`app/models/__init__.py` lines 86-96).
Its constructor accepts exactly the eight fields below — see
`multiHostSearchResultFields`. -/
structure MultiHostSearchResult where
  log_name : String
  keyword : String
  search_params : List (String × String)
  total_hosts : Nat
  hosts : List SearchResult
  total_results : Nat
  total_search_time : Int
  parallel_execution : Bool
  deriving DecidableEq, Repr

/-- The complete field list of the `MultiHostSearchResult` dataclass
(`app/models/__init__.py` lines 88-95). -/
def multiHostSearchResultFields : List String :=
  ["log_name", "keyword", "search_params", "total_hosts", "hosts",
   "total_results", "total_search_time", "parallel_execution"]

/-- The keyword-argument names passed to the `MultiHostSearchResult(...)` call
at `app/services/log/search.py` line 136 — nine names, including
`aggregated_truncation`, which the dataclass does not declare. -/
def multiHostSearchResultCallKwargs : List String :=
  ["log_name", "keyword", "search_params", "total_hosts", "hosts",
   "total_results", "total_search_time", "parallel_execution",
   "aggregated_truncation"]

/-! ## Command composition (`app/services/log/search.py`) -/

/-- Module constant `SINGLE_HOST_TAIL_RECENT` (search.py line 26). -/
def SINGLE_HOST_TAIL_RECENT : Int := 100

/-- Module constant `MAX_GREP_LINES_LIMIT` (search.py line 27). -/
def MAX_GREP_LINES_LIMIT : Int := 10000

/-- Characters `shlex.quote` leaves unquoted (the complement of the shlex
`_find_unsafe` class: word chars and `@ % + = : , . -` and the slash, ASCII). -/
def shlexSafeChar (c : Char) : Bool :=
  c.isAlphanum || c = '_' || c = '@' || c = '%' || c = '+' || c = '=' ||
  c = ':' || c = ',' || c = '.' || c = '/' || c = '-'

/-- Python `shlex.quote`: empty string and strings with unsafe characters are
wrapped in single quotes, with embedded single quotes escaped. -/
def shlexQuote (s : String) : String :=
  if s = "" then sq ++ sq
  else if s.data.all shlexSafeChar then s
  else sq ++ pyReplace s sq (sq ++ "\"" ++ sq ++ "\"" ++ sq) ++ sq

/-- `LogSearchService._tail_builder` (search.py lines 249-252). -/
def tailBuilder (isGz : Bool) (decompress : Option String) (quotedFile : String)
    (n : Int) : String :=
  if isGz then (decompress.getD "") ++ " | tail -n " ++ toString n
  else "tail -n " ++ toString n ++ " " ++ quotedFile

/-- `LogSearchService._compose_command` (search.py lines 254-280): builds the
remote shell command for one host from the search parameters, the
shlex-quoted resolved file, the compression state, and the cached
reverse-order filter command. -/
def composeCommand (sp : SearchParams) (quotedFile : String) (isGz : Bool)
    (decompress : Option String) (reverseCmd : String) : String :=
  if sp.search_mode = "tail" then
    let lines := max SINGLE_HOST_TAIL_RECENT sp.context_span
    let cmd := tailBuilder isGz decompress quotedFile lines
    if sp.reverse_order then cmd ++ " | " ++ reverseCmd else cmd
  else if sp.keyword = "" then
    let cmd := tailBuilder isGz decompress quotedFile SINGLE_HOST_TAIL_RECENT
    if sp.reverse_order then cmd ++ " | " ++ reverseCmd else cmd
  else
    let grepCmd0 := if sp.use_regex then "grep -nE" else "grep -nF"
    let grepCmd :=
      if sp.search_mode = "context" && sp.context_span > 0 then
        grepCmd0 ++ " -C " ++ toString sp.context_span
      else grepCmd0
    let escapedKeyword := shlexQuote sp.keyword
    let cmd :=
      if isGz then (decompress.getD "") ++ " | " ++ grepCmd ++ " " ++ escapedKeyword
      else grepCmd ++ " " ++ escapedKeyword ++ " " ++ quotedFile
    if sp.reverse_order then
      cmd ++ " | tail -n " ++ toString MAX_GREP_LINES_LIMIT ++ " | " ++ reverseCmd
    else
      cmd ++ " | head -n " ++ toString MAX_GREP_LINES_LIMIT

/-- `_prepare_file_usage` (search.py lines 243-247). -/
def prepareFileUsage (filePath : String) : String × Bool × Option String :=
  let quotedFile := shlexQuote filePath
  let isGz := pyEndsWith filePath ".gz"
  let decompress := if isGz then some ("gzip -dc " ++ quotedFile) else none
  (quotedFile, isGz, decompress)

/-! ## Remote oracle and process state -/

/-- SSH host configuration dict entries used by the core (`host`, `port`,
`username`, per-host `path`, and the `ssh_index` injected by
`search_multi_host`). -/
structure SSHConfig where
  host : String
  port : Nat := 22
  username : String := ""
  path : Option String := none
  sshIndex : Option Nat := none
  deriving DecidableEq, Repr

/-- The remote side as a deterministic oracle: whether authentication succeeds
for a pool key, whether a transport liveness probe succeeds for a connection
id, and the `(stdout, stderr, exit code)` of a command on a host.  `now` is the
fixed model clock (`time.time()`). -/
structure Remote where
  connectOk : String → Bool
  alive : Nat → Bool
  exec : String → String → String × String × Int
  now : Int := 0
  today : Nat × Nat × Nat := (2025, 9, 8)

/-- One pooled `SSHConnection` (`app/services/ssh/manager.py` lines 15-123):
identity (`cid`, the Python object identity), connected flag, `last_used`
timestamp, and the cached detected remote encoding. -/
structure Conn where
  cid : Nat
  key : String
  connected : Bool := true
  lastUsed : Int := 0
  remoteEncoding : Option String := none
  deriving DecidableEq, Repr

/-- Process-wide mutable state: the pool of the manager, the next fresh connection
identity, the module-level `_encoding_cache` of `encoding.py`, the
`_reverse_cmd_cache` of the search service, and the trace of remote calls `(key, command)` —
connection attempts are recorded as the pseudo-command `__connect__`. -/
structure World where
  pool : List (String × Conn) := []
  nextCid : Nat := 0
  encCache : List (String × String) := []
  revCmdCache : List (String × String) := []
  trace : List (String × String) := []
  deriving DecidableEq, Repr

/-- Association-list lookup (Python dict read). -/
def lookupA {α : Type} (l : List (String × α)) (k : String) : Option α :=
  match l.find? (fun p => p.1 = k) with
  | some p => some p.2
  | none => none

/-- Association-list removal (Python `del d[k]`). -/
def eraseA {α : Type} (l : List (String × α)) (k : String) : List (String × α) :=
  l.filter (fun p => p.1 ≠ k)

/-- Association-list write (Python `d[k] = v`). -/
def insertA {α : Type} (l : List (String × α)) (k : String) (v : α) :
    List (String × α) :=
  (k, v) :: eraseA l k

/-! ## Encoding detection (`app/services/utils/encoding.py`) -/

/-- ASCII uppercase of a string (Python `str.upper()` on ASCII locale output). -/
def pyUpper (s : String) : String := String.mk (s.data.map Char.toUpper)

/-- `EncodingDetector.detect_from_locale` (encoding.py lines 83-121). -/
def detectFromLocale (localeOutput : String) : String :=
  if localeOutput = "" then "utf-8"
  else
    let u := pyUpper localeOutput
    if strContains u "UTF-8" || strContains u "UTF8" then "utf-8"
    else if strContains u "GBK" then "gbk"
    else if strContains u "GB18030" then "gb18030"
    else if strContains u "GB2312" then "gb18030"
    else if strContains u "BIG5" then "big5"
    else if strContains u "SHIFT" || strContains u "SJIS" then "shift_jis"
    else if strContains u "ISO-8859" || strContains u "LATIN" then "latin-1"
    else "utf-8"

/-- Keyword parameters accepted by `smart_decode`
(encoding.py lines 142-147): `data` is positional-or-keyword as well, but the
calls under study pass it positionally. -/
def smartDecodeAcceptedKwargs : List String :=
  ["data", "preferred_encoding", "fallback_encodings", "enable_auto_detect"]

/-! ## SSH connection manager (`app/services/ssh/manager.py`) -/

/-- `SSHConnectionManager._connection_key` (manager.py lines 135-136). -/
def connectionKey (cfg : SSHConfig) : String :=
  cfg.host ++ ":" ++ toString cfg.port ++ ":" ++ cfg.username

/-- `SSHConnection._detect_remote_encoding` (manager.py lines 56-83): consult
the module-level cache, else run `locale | grep LC_CTYPE` remotely, map the
output through `detect_from_locale`, and cache the result. -/
def detectRemoteEncoding (remote : Remote) (key : String) (w : World) :
    String × World :=
  match lookupA w.encCache key with
  | some cached => (cached, w)
  | none =>
      let out := (remote.exec key "locale | grep LC_CTYPE").1
      let enc := detectFromLocale out
      (enc, { w with encCache := insertA w.encCache key enc,
                     trace := w.trace ++ [(key, "locale | grep LC_CTYPE")] })

/-- `SSHConnection.connect` (manager.py lines 27-54): authenticate (outcome
given by the oracle), then detect the remote encoding.  A failed attempt
leaves no connection.  Every attempt is a network call and is traced. -/
def sshConnect (remote : Remote) (cfg : SSHConfig) (w : World) :
    Option Conn × World :=
  let key := connectionKey cfg
  let w0 := { w with trace := w.trace ++ [(key, "__connect__")] }
  if remote.connectOk key then
    let d := detectRemoteEncoding remote key { w0 with nextCid := w0.nextCid + 1 }
    (some { cid := w0.nextCid, key := key, connected := true,
            lastUsed := remote.now, remoteEncoding := some d.1 }, d.2)
  else (none, w0)

/-- `SSHConnection.is_alive` (manager.py lines 106-113): connected flag plus a
transport liveness probe. -/
def isAlive (remote : Remote) (c : Conn) : Bool :=
  c.connected && remote.alive c.cid

/-- `SSHConnection.execute_command` (manager.py lines 85-104): raises
`RuntimeError` when not connected, otherwise runs the command (stdout/stderr
already smart-decoded by the oracle), refreshes `last_used`, and returns
`(stdout, stderr, exit code)`. -/
def executeCommand (remote : Remote) (c : Conn) (cmd : String) (w : World) :
    Except PyError (String × String × Int) × World :=
  if !c.connected then (.error (.runtimeError "SSH连接未建立"), w)
  else
    let res := remote.exec c.key cmd
    let w1 := { w with
      trace := w.trace ++ [(c.key, cmd)],
      pool := w.pool.map (fun p =>
        if p.1 = c.key then (p.1, { p.2 with lastUsed := remote.now }) else p) }
    (.ok res, w1)

/-- `SSHConnectionManager.max_connections` default (manager.py line 128). -/
def maxConnections : Nat := 20

/-- `SSHConnectionManager._cleanup_old_connections` (manager.py lines 163-170):
close and drop connections idle for more than 300 seconds. -/
def cleanupOldConnections (remote : Remote) (w : World) : World :=
  { w with pool := w.pool.filter (fun p => !(remote.now - p.2.lastUsed > 300)) }

/-- The pool-miss path of `get_connection` (manager.py lines 147-153): run the
capacity-triggered staleness sweep, authenticate a fresh connection, and store
it under the key on success. -/
def getConnectionMiss (remote : Remote) (cfg : SSHConfig) (w1 : World) :
    Option Conn × World :=
  match sshConnect remote cfg
      (if w1.pool.length ≥ maxConnections then cleanupOldConnections remote w1
       else w1) with
  | (some c, w3) => (some c, { w3 with pool := insertA w3.pool (connectionKey cfg) c })
  | (none, w3) => (none, w3)

/-- `SSHConnectionManager.get_connection` (manager.py lines 138-153): return a
live pooled connection as-is; close and remove a dead one before taking the
miss path. -/
def getConnection (remote : Remote) (cfg : SSHConfig) (w : World) :
    Option Conn × World :=
  match lookupA w.pool (connectionKey cfg) with
  | some c =>
      if isAlive remote c then (some c, w)
      else getConnectionMiss remote cfg { w with pool := eraseA w.pool (connectionKey cfg) }
  | none => getConnectionMiss remote cfg w

/-! ## Filename resolver (`app/services/utils/filename_resolver.py`) -/

/-- Two-digit zero padding (`strftime` `%m` / `%d`). -/
def pad2 (n : Nat) : String := if n < 10 then "0" ++ toString n else toString n

/-- `FilenameResolver._replace_date_placeholders` (filename_resolver.py lines
31-35): substitute `{YYYY}` `{MM}` `{DD}` with the zero-padded date parts. -/
def replaceDatePlaceholders (pattern : String) (date : Nat × Nat × Nat) : String :=
  let p1 := if strContains pattern "{YYYY}" then pyReplace pattern "{YYYY}" (toString date.1) else pattern
  let p2 := if strContains p1 "{MM}" then pyReplace p1 "{MM}" (pad2 date.2.1) else p1
  if strContains p2 "{DD}" then pyReplace p2 "{DD}" (pad2 date.2.2) else p2

/-- POSIX `fnmatch` / `find -name` glob matching for `*` and `?` (the only
metacharacters the patterns of the resolver can contain, since its globs arise by
substituting `*` for `{N}` in a literal filename).  Fuel-driven so closed
instances reduce in the kernel; `globMatch` supplies sufficient fuel. -/
def globMatchAux : Nat → List Char → List Char → Bool
  | 0, _, _ => false
  | _ + 1, [], s => s.isEmpty
  | f + 1, p :: prest, s =>
      if p = '*' then
        globMatchAux f prest s ||
          (match s with
           | [] => false
           | _ :: srest => globMatchAux f (p :: prest) srest)
      else
        match s with
        | [] => false
        | d :: srest => (p = '?' || p = d) && globMatchAux f prest srest

/-- Does filename `s` match glob `pat`? -/
def globMatch (pat s : String) : Bool :=
  globMatchAux (pat.length + s.length + 1) pat.data s.data

/-- The stdout a POSIX `find dir -maxdepth 1 -name glob -type f` produces over
a directory whose plain files are `listing`: one `dir/name` line per matching
name.  Used to build concrete remote oracles for the resolver. -/
def findOutput (dir glob : String) (listing : List String) : String :=
  String.intercalate "\n" ((listing.filter (fun n => globMatch glob n)).map
    (fun n => dir ++ "/" ++ n))

/-- The literal segments of `_create_regex_from_pattern` (filename_resolver.py
lines 68-71): `re.escape` makes every segment literal, and each `{N}` becomes
the group `(\d+)`, so the regex is the alternation-free shape
`^seg0 (\d+) seg1 (\d+) ... $` described by splitting the pattern at `{N}`. -/
def regexSegments (pattern : String) : List (List Char) :=
  splitOnList "{N}".data pattern.data

/-- Backtracking tryout of the greedy `(\d+)` group: try group lengths from
`k` down to `1` against the continuation `next` on the remaining input,
returning the group values on the first success (Python `re` leftmost-greedy
semantics). -/
def segsTry (next : List Char → Option (List (List Char))) (s : List Char) :
    Nat → Option (List (List Char))
  | 0 => none
  | k + 1 =>
      match next (s.drop (k + 1)) with
      | some gs => some (s.take (k + 1) :: gs)
      | none => segsTry next s k

/-- Matcher for the full regex `^seg0 (\d+) seg1 ... $`: returns the captured
digit groups on a match.  Fuel-driven; `segsMatch` supplies enough fuel. -/
def segsMatchAux : Nat → List (List Char) → List Char → Option (List (List Char))
  | 0, _, _ => none
  | f + 1, segs, s =>
      match segs with
      | [] => none
      | [lit] => if s = lit then some [] else none
      | lit :: rest =>
          if lit.isPrefixOf s then
            let s1 := s.drop lit.length
            let ds := (s1.takeWhile (fun c => c.isDigit)).length
            segsTry (segsMatchAux f rest) s1 ds
          else none

/-- `re.match` of the regex derived from `pattern` against `filename`,
returning the captured groups. -/
def segsMatch (segs : List (List Char)) (filename : List Char) :
    Option (List (List Char)) :=
  segsMatchAux (filename.length + segs.length + 1) segs filename

/-- `FilenameResolver._find_remote_files` (filename_resolver.py lines 73-93):
check the directory exists, then list it restricted to the glob (or probe a
single literal file), parsing the remote stdout into a path list.  Any error
yields `[]`. -/
def findRemoteFiles (remote : Remote) (c : Conn) (globPattern : String)
    (w : World) : List String × World :=
  let unixGlob := pyReplace globPattern "\\" "/"
  let parts := pySplit unixGlob "/"
  let directory :=
    if strContains unixGlob "/" then
      String.intercalate "/" (parts.dropLast)
    else "."
  let filenamePat := parts.getLastD unixGlob
  let dirCheckCmd := "test -d " ++ sq ++ directory ++ sq ++ " && echo " ++ sq ++
    "dir_exists" ++ sq ++ " || echo " ++ sq ++ "dir_not_exists" ++ sq
  match executeCommand remote c dirCheckCmd w with
  | (.error _, w1) => ([], w1)
  | (.ok (out1, _, _), w1) =>
      if strContains out1 "dir_not_exists" then ([], w1)
      else
        let cmd :=
          if strContains filenamePat "*" || strContains filenamePat "?" then
            let escapedPattern := pyReplace filenamePat sq (sq ++ "\"" ++ sq ++ "\"" ++ sq)
            "find " ++ sq ++ directory ++ sq ++ " -maxdepth 1 -name " ++ sq ++
              escapedPattern ++ sq ++ " -type f 2>/dev/null || true"
          else
            let fullPath := if directory ≠ "." then directory ++ "/" ++ filenamePat
              else filenamePat
            "test -f " ++ sq ++ fullPath ++ sq ++ " && echo " ++ sq ++ fullPath ++
              sq ++ " || true"
        match executeCommand remote c cmd w1 with
        | (.error _, w2) => ([], w2)
        | (.ok (out2, _, _), w2) =>
            if pyStrip out2 ≠ "" then
              (((pySplit (pyStrip out2) "\n").map pyStrip).filter (fun l => l ≠ ""), w2)
            else ([], w2)

/-- `FilenameResolver._resolve_slice_placeholder` (filename_resolver.py lines
37-66): list candidates for the `*`-substituted pattern, keep the match with
the numerically largest first captured `{N}` group, fall back to the `N=0`
default path when nothing matches. -/
def resolveSlicePlaceholder (remote : Remote) (c : Conn) (pattern : String)
    (w : World) : String × World :=
  let directory := if osPathDirname pattern = "" then "." else osPathDirname pattern
  let filenamePattern := osPathBasename pattern
  let globPattern := pyReplace filenamePattern "{N}" "*"
  let directoryUnix := pyReplace directory "\\" "/"
  let fullGlobPattern := if directoryUnix ≠ "." then directoryUnix ++ "/" ++ globPattern
    else globPattern
  let (matchingFiles, w1) := findRemoteFiles remote c fullGlobPattern w
  if matchingFiles.isEmpty then (pyReplace pattern "{N}" "0", w1)
  else
    let segs := regexSegments filenamePattern
    let best := matchingFiles.foldl
      (fun (acc : Int × Option String) fp =>
        let filename := osPathBasename fp
        match segsMatch segs filename.data with
        | some (g :: _) =>
            let n : Int := (digitsToNat g : Nat)
            if n > acc.1 then (n, some fp) else acc
        | _ => acc)
      (-1, none)
    match best.2 with
    | some bf => (bf, w1)
    | none => (matchingFiles.headD "", w1)

/-- `FilenameResolver.resolve_filename` / module-level `resolve_log_filename`
(filename_resolver.py lines 20-29, 97-98): date substitution is pure; a `{N}`
placeholder requires a connection (else `ValueError`) and triggers the remote
slice resolution.  Note: `validate_log_filename_pattern` is **not** invoked on
this path. -/
def resolveFilename (remote : Remote) (connOpt : Option Conn) (pattern : String)
    (targetDate : Option (Nat × Nat × Nat)) (w : World) :
    Except PyError String × World :=
  let date := targetDate.getD remote.today
  let resolved := replaceDatePlaceholders pattern date
  if strContains resolved "{N}" then
    match connOpt with
    | none => (.error (.valueError "处理切片通配符 {N} 需要提供 SSH 连接对象"), w)
    | some c =>
        let (r, w1) := resolveSlicePlaceholder remote c resolved w
        (.ok r, w1)
  else (.ok resolved, w)

/-- Fuel-driven scanner for `re.findall` of the placeholder regex: at each
`{`, the group extends to the first following `}` and must be non-empty;
scanning resumes after the match (or past the `{` when no match starts
there). -/
def findBraceGroupsAux : Nat → List Char → List String
  | 0, _ => []
  | _ + 1, [] => []
  | f + 1, c :: rest =>
      if c = '{' then
        let content := rest.takeWhile (fun x => x ≠ '}')
        if !content.isEmpty && content.length < rest.length then
          String.mk ('{' :: content ++ ['}']) ::
            findBraceGroupsAux f (rest.drop (content.length + 1))
        else findBraceGroupsAux f rest
      else findBraceGroupsAux f rest

/-- All placeholder-like groups of a pattern (`re.findall` of brace groups,
filename_resolver.py line 102). -/
def findBraceGroups (s : String) : List String :=
  findBraceGroupsAux (s.length + 1) s.data

/-- `validate_log_filename_pattern` (filename_resolver.py lines 100-111):
reports unknown placeholders, a duplicated `{N}`, and an empty pattern.
Returns `(ok, errors)`.  This is a standalone utility — nothing on the resolve
path calls it. -/
def validateLogFilenamePattern (pattern : String) : Bool × List String :=
  let invalids := findBraceGroups pattern
  let valid : List String := ["{YYYY}", "{MM}", "{DD}", "{N}"]
  let errors :=
    (invalids.filter (fun ph => !valid.contains ph)).map
      (fun ph => "无效的占位符: " ++ ph) ++
    (if pyCountSub pattern "{N}" > 1 then
      ["切片占位符{N}只能出现一次，当前出现了" ++ toString (pyCountSub pattern "{N}") ++ "次"]
    else []) ++
    (if pyStrip pattern = "" then ["文件名模式不能为空"] else [])
  (errors.isEmpty, errors)


/-! ## Log search service (`app/services/log/search.py`) -/

/-- The portable reverse sed filter of search.py lines 70-74 (built without
quote characters in this source). -/
def sedReverseCmd : String := "sed " ++ sq ++ "1!G;h;$!d" ++ sq

/-- Cache key of `_reverse_cmd_cache` (search.py lines 57-60). -/
def reverseCacheKey (cfg : SSHConfig) : String :=
  cfg.host ++ "|" ++ toString cfg.port ++ "|" ++ cfg.username

/-- `LogSearchService._get_reverse_command` (search.py lines 56-76): per-endpoint
cached probe `which tac`; any failure (no connection, command error) falls back
to the sed reverse filter.  The result is cached unconditionally. -/
def getReverseCommand (remote : Remote) (cfg : SSHConfig) (w : World) :
    String × World :=
  let cacheKey := reverseCacheKey cfg
  match lookupA w.revCmdCache cacheKey with
  | some cmd => (cmd, w)
  | none =>
      let (res, w1) :=
        match getConnection remote cfg w with
        | (some c, wa) =>
            match executeCommand remote c "which tac" wa with
            | (.ok (stdout, _, code), wb) =>
                (if code = 0 && pyStrip stdout ≠ "" then "tac" else sedReverseCmd, wb)
            | (.error _, wb) => (sedReverseCmd, wb)
        | (none, wa) => (sedReverseCmd, wa)
      (res, { w1 with revCmdCache := insertA w1.revCmdCache cacheKey res })

/-- `LogSearchService._resolve_effective_file_path` (search.py lines 214-231):
per-host selected file (keyed `host|index` or plain host) overrides the log
entry default when the file filter is on. -/
def resolveEffectiveFilePath (logPath : String) (sp : SearchParams)
    (cfg : SSHConfig) : String :=
  if sp.use_file_filter then
    let host := cfg.host
    let hostKey := host ++ "|" ++ (match cfg.sshIndex with
      | some i => toString i
      | none => "")
    let selectedFiles := sp.selected_files.getD []
    if !selectedFiles.isEmpty then
      match lookupA selectedFiles hostKey with
      | some f => f
      | none =>
          match lookupA selectedFiles host with
          | some f => f
          | none => logPath
    else
      match sp.selected_file with
      | some f => if f ≠ "" then f else logPath
      | none => logPath
  else logPath

/-- `LogSearchService._expand_placeholders` (search.py lines 233-241): resolve
date / slice placeholders through the filename resolver; any resolver error is
swallowed and the original path returned. -/
def expandPlaceholders (remote : Remote) (cfg : SSHConfig) (filePath : String)
    (w : World) : String × World :=
  if ["{YYYY}", "{MM}", "{DD}", "{N}"].any (fun ph => strContains filePath ph) then
    let (connOpt, w1) := getConnection remote cfg w
    match resolveFilename remote connOpt filePath none w1 with
    | (.ok p, w2) => (p, w2)
    | (.error _, w2) => (filePath, w2)
  else (filePath, w)

/-- `LogSearchService._build_search_command` (search.py lines 205-212). -/
def buildSearchCommand (remote : Remote) (logPath : String) (sp : SearchParams)
    (cfg : SSHConfig) (w : World) : (String × String) × World :=
  let (reverseCmd, w1) := getReverseCommand remote cfg w
  let fp0 := resolveEffectiveFilePath logPath sp cfg
  let (filePath, w2) := expandPlaceholders remote cfg fp0 w1
  let (quotedFile, isGz, decompress) := prepareFileUsage filePath
  ((composeCommand sp quotedFile isGz decompress reverseCmd, filePath), w2)

/-- The precompiled `LINE_NUM_RE` regex (search.py line 32):
matches a leading digit run, one of `: = -`, and the rest of the line. -/
def lineNumRe (raw : String) : Option (Nat × String) :=
  let ds := raw.data.takeWhile (fun c => c.isDigit)
  if ds.isEmpty then none
  else
    match raw.data.drop ds.length with
    | [] => none
    | sep :: rest =>
        if sep = ':' || sep = '=' || sep = '-' then
          some (digitsToNat ds, String.mk rest)
        else none

/-- `LogSearchService._parse_grep_output` (search.py lines 355-389): drop blank
lines and (when line-numbered) grep context separators, strip the
`<lineno><sep>` prefix plus leading colons/whitespace only when the command is
known to have asked for line numbers, and record per-line match metadata. -/
def parseGrepOutput (lines : List String) (filePath : String)
    (hasLineNumbers : Bool) : List String × List MatchEntry :=
  lines.foldl
    (fun (acc : List String × List MatchEntry) raw =>
      if pyStrip raw = "" then acc
      else if hasLineNumbers && pyStrip raw = "--" then acc
      else
        let (lineNo, content) :=
          if hasLineNumbers then
            match lineNumRe raw with
            | some (n, rest) => (some n, pyLstrip (pyLstripChar rest ':'))
            | none => (none, pyLstrip (pyLstripChar raw ':'))
          else (none, raw)
        (acc.1 ++ [content],
         acc.2 ++ [{ file_path := filePath, line_number := lineNo, content := content }]))
    ([], [])

/-- The truncation step of `_search_single_host` (search.py lines 168-180),
parameterised over the (would-be) `max_lines` value: on overflow keep the first
`limit` entries in reverse order, else the last `limit`, and flag truncation. -/
def applyTruncation (maxLines : Option Nat) (reverseOrder : Bool)
    (results : List String) (matchesL : List MatchEntry) :
    List String × List MatchEntry × Bool :=
  match maxLines with
  | none => (results, matchesL, false)
  | some limit =>
      if limit ≠ 0 && results.length > limit then
        if reverseOrder then (results.take limit, matchesL.take limit, true)
        else (results.drop (results.length - limit),
              matchesL.drop (matchesL.length - limit), true)
      else (results, matchesL, false)

/-- The `try` body of `_search_single_host` (search.py lines 141-200): build the
command, connect, execute, decode, parse, read `max_lines` (an attribute the
dataclass does not declare — see `SearchParams.maxLinesAttr`), truncate, and
assemble the per-host success result.  A Lean `String` is always valid Unicode,
so the utf-8 re-encode round-trip check of lines 152-158 cannot fail
and `encoding_used` stays `utf-8`. -/
def searchSingleHostBody (remote : Remote) (cfg : SSHConfig) (logPath : String)
    (sp : SearchParams) (sshIndex : Nat) (w : World) :
    Except PyError SearchResult × World :=
  let host := cfg.host
  let ((command, resolvedPath), w1) := buildSearchCommand remote logPath sp cfg w
  match getConnection remote cfg w1 with
  | (none, w2) => (.error (.runtimeError "SSH连接失败"), w2)
  | (some conn, w2) =>
      match executeCommand remote conn command w2 with
      | (.error e, w3) => (.error e, w3)
      | (.ok (stdout, stderr, code), w3) =>
          if code ≠ 0 && stderr ≠ "" then
            (.error (.runtimeError ("搜索命令执行失败: " ++ stderr)), w3)
          else
            let encodingUsed := "utf-8"
            let lines := if pyStrip stdout ≠ "" then pySplit (pyStrip stdout) "\n" else []
            let hasLineNumbers := strContains command "grep -n"
            let (results, matchesL) := parseGrepOutput lines resolvedPath hasLineNumbers
            let originalTotal := results.length
            match sp.maxLinesAttr with
            | .error e => (.error e, w3)
            | .ok maxLines =>
                let (results2, matches2, truncated) :=
                  applyTruncation maxLines sp.reverse_order results matchesL
                (.ok { host := host, ssh_index := sshIndex, results := results2,
                       total_results := results2.length, search_time := 0,
                       search_result := {
                         content := pyStrip stdout, file_path := resolvedPath,
                         keyword := sp.keyword, total_lines := results2.length,
                         original_total_lines := some originalTotal,
                         truncated := some truncated, search_time := 0,
                         matches_ := matches2, encoding_used := some encodingUsed },
                       success := true }, w3)

/-- `LogSearchService._search_single_host` (search.py lines 138-203): the body
above with its blanket `except Exception` handler, which converts any raised
error into a failed-but-present `SearchResult` carrying `str(e)`. -/
def searchSingleHost (remote : Remote) (cfg : SSHConfig) (logPath : String)
    (sp : SearchParams) (sshIndex : Nat) (w : World) : SearchResult × World :=
  match searchSingleHostBody remote cfg logPath sp sshIndex w with
  | (.ok r, w1) => (r, w1)
  | (.error e, w1) =>
      ({ host := cfg.host, ssh_index := sshIndex, results := [], total_results := 0,
         search_time := 0,
         search_result := { content := "", file_path := "", keyword := sp.keyword,
                            total_lines := 0, search_time := 0, matches_ := [] },
         success := false, error := some e.msg }, w1)

/-- Log config dict (`LogConfig.to_dict`): name, optional legacy top-level
path, per-host SSH configs. -/
structure LogConfig where
  name : String
  path : Option String := none
  sshs : List SSHConfig
  deriving DecidableEq, Repr

/-- Python `a or b or ""` for optional/empty path strings (empty string is
falsy). -/
def pyOrPath (p legacy : Option String) : String :=
  match p with
  | some s => if s ≠ "" then s else (legacy.filter (fun t => t ≠ "")).getD ""
  | none => (legacy.filter (fun t => t ≠ "")).getD ""

/-- Stable insertion of a `SearchResult` into a list ascending in `ssh_index`. -/
def insertBySshIndex (r : SearchResult) : List SearchResult → List SearchResult
  | [] => [r]
  | x :: xs => if r.ssh_index < x.ssh_index then r :: x :: xs
               else x :: insertBySshIndex r xs

/-- Stable sort by ascending `ssh_index` (Python `list.sort(key=...)`,
search.py line 111). -/
def sortBySshIndex : List SearchResult → List SearchResult
  | [] => []
  | x :: xs => insertBySshIndex x (sortBySshIndex xs)

/-- Python `a or b` for a possibly-absent, possibly-zero count (`info.get(...)
or ...`, search.py line 120). -/
def pyOrNat (a : Option Nat) (b : Nat) : Nat :=
  match a with
  | some v => if v = 0 then b else v
  | none => b

/-- One entry of the `truncated_hosts` aggregation list (search.py line 123). -/
structure TruncatedHost where
  host : String
  ssh_index : Nat
  original_total_lines : Nat
  after_truncation : Nat
  deriving DecidableEq, Repr

/-- The `aggregated_truncation` dict (search.py lines 129-135). -/
structure AggregatedTruncation where
  any_truncated : Bool
  truncated_hosts : List TruncatedHost
  total_original_lines : Nat
  total_after_truncation : Nat
  lines_reduced : Nat
  deriving DecidableEq, Repr

/-- Aggregation tail of `search_multi_host` (search.py lines 111-136): sort by
`ssh_index`, total successful hosts, build the truncation summary, then call
the `MultiHostSearchResult` constructor.  The call site passes the nine keyword
arguments of `multiHostSearchResultCallKwargs`, one of which
(`aggregated_truncation`) the dataclass does not accept — `pyCheckKwargs`
yields the resulting `TypeError`. -/
def finalizeMultiHost (logName : String) (sp : SearchParams) (parallel : Bool)
    (results : List SearchResult) (totalHosts : Nat) (w : World) :
    Except PyError MultiHostSearchResult × World :=
  let sorted := sortBySshIndex results
  let total := (sorted.filter (fun r => r.success)).foldl
    (fun a r => a + r.total_results) 0
  let elapsed : Int := 0
  let truncatedHosts := sorted.foldl
    (fun (acc : List TruncatedHost) r =>
      if r.success && (r.search_result.truncated.getD false) then
        acc ++ [{ host := r.host, ssh_index := r.ssh_index,
                  original_total_lines :=
                    pyOrNat r.search_result.original_total_lines r.search_result.total_lines,
                  after_truncation := r.total_results }]
      else acc) []
  let originalTotalAll := (sorted.filter (fun r => r.success)).foldl
    (fun a r => a + pyOrNat r.search_result.original_total_lines r.search_result.total_lines) 0
  let anyTruncated := !truncatedHosts.isEmpty
  let linesReduced := if anyTruncated then
      truncatedHosts.foldl (fun a h => a + (h.original_total_lines - h.after_truncation)) 0
    else 0
  let _aggregatedTruncation : AggregatedTruncation :=
    { any_truncated := anyTruncated, truncated_hosts := truncatedHosts,
      total_original_lines := originalTotalAll, total_after_truncation := total,
      lines_reduced := linesReduced }
  match pyCheckKwargs "MultiHostSearchResult" multiHostSearchResultFields
      multiHostSearchResultCallKwargs with
  | .error e => (.error e, w)
  | .ok () =>
      (.ok { log_name := logName, keyword := sp.keyword,
             search_params := [("keyword", sp.keyword),
                               ("search_mode", sp.search_mode),
                               ("context_span", toString sp.context_span),
                               ("use_regex", toString sp.use_regex)],
             total_hosts := totalHosts, hosts := sorted, total_results := total,
             total_search_time := elapsed, parallel_execution := parallel }, w)

/-- `LogSearchService.search_multi_host` (search.py lines 78-136): validate
first; reject an empty host list; dispatch one `_search_single_host` per host
(the multi-host fan-out completes in the oracle-chosen `order`, a permutation
of the host indices — task failures are impossible because
`_search_single_host` catches everything); then aggregate. -/
def searchMultiHost (remote : Remote) (logConfig : LogConfig) (sp : SearchParams)
    (order : List Nat) (w : World) : Except PyError MultiHostSearchResult × World :=
  match sp.validate with
  | .error e => (.error e, w)
  | .ok () =>
      match logConfig.sshs with
      | [] => (.error (.valueError "日志配置中没有SSH主机"), w)
      | [ssh0raw] =>
          let ssh0 := { ssh0raw with sshIndex := some 0 }
          let p0 := pyOrPath ssh0raw.path logConfig.path
          let (r, w1) := searchSingleHost remote ssh0 p0 sp 0 w
          finalizeMultiHost logConfig.name sp false [r] 1 w1
      | sshs =>
          let cfgs := sshs.mapIdx (fun i c => { c with sshIndex := some i })
          let (results, w1) := order.foldl
            (fun (acc : List SearchResult × World) i =>
              match cfgs[i]? with
              | some ci =>
                  let (r, w2) := searchSingleHost remote ci
                    (pyOrPath ci.path logConfig.path) sp i acc.2
                  (acc.1 ++ [r], w2)
              | none => acc)
            ([], w)
          finalizeMultiHost logConfig.name sp true results sshs.length w1

/-! ## Terminal output reader (`app/services/terminal/service.py`) -/

/-- The keyword-argument names `_smart_decode_chunk` passes to `smart_decode`
(service.py line 15). -/
def smartDecodeChunkCallKwargs : List String := ["last_good", "forced"]

/-- `_smart_decode_chunk` (service.py lines 14-15), generic over the body of
`smart_decode`: Python binds the keyword arguments of the call against
the parameter list of `smart_decode` (`smartDecodeAcceptedKwargs`, from
encoding.py lines 142-147) before the body can run, so the body is an opaque
parameter here and the binding check is what the definition captures. -/
def smartDecodeChunk (impl : List Nat → Except PyError (String × String))
    (data : List Nat) (_lastGood : String) (_forced : Option String) :
    Except PyError (String × String) :=
  match pyCheckKwargs "smart_decode" smartDecodeAcceptedKwargs
      smartDecodeChunkCallKwargs with
  | .error e => .error e
  | .ok () => impl data

/-- The per-session dict entries the output reader touches
(service.py lines 88-100): decoded-output buffer, last successful encoding,
forced encoding override, last locale marker. -/
structure SessionData where
  buffer : List String := []
  encoding : String := "utf-8"
  forcedEncoding : Option String := none
  lastLocale : Option String := none
  deriving DecidableEq, Repr

/-- Python `line.startswith(p)`. -/
def strStarts (l p : String) : Bool := p.data.isPrefixOf l.data

/-- Python split at the first colon, keeping the remainder. -/
def afterFirstColon (l : String) : String :=
  String.mk ((l.data.dropWhile (fun c => c ≠ ':')).drop 1)

/-- The locale-marker scan of the reader loop (service.py lines 292-301):
first line starting with one of the marker prefixes yields the text after the
colon, stripped. -/
def localeMarker (text : String) : Option String :=
  if strContains text "__AUTO_LOCALE_SET:" || strContains text "__SET_LOCALE:" then
    (pySplit text "\n").foldl
      (fun acc l =>
        match acc with
        | some _ => acc
        | none =>
            if strStarts l "__AUTO_LOCALE_SET:" || strStarts l "__SET_LOCALE:" then
              some (pyStrip (afterFirstColon l))
            else none)
      none
  else none

/-- One received-chunk iteration of `TerminalService._output_reader`
(service.py lines 278-307): decode the chunk via `_smart_decode_chunk`; on
success persist a newly detected encoding, record a locale marker, and append
the text to the session buffer; the blanket `except Exception` handler turns
any error into a bare `time.sleep(0.1)`, leaving the session unchanged.  (The
`if not data: break` channel-closure path is outside this step.) -/
def outputReaderChunkStep (impl : List Nat → Except PyError (String × String))
    (sd : SessionData) (data : List Nat) : SessionData :=
  if data.isEmpty then sd
  else
    let lastGood := sd.encoding
    let forced := sd.forcedEncoding
    match smartDecodeChunk impl data lastGood forced with
    | .error _ => sd
    | .ok (text, detected) =>
        let sd1 := if forced.isNone && detected ≠ "" && detected ≠ lastGood then
            { sd with encoding := detected }
          else sd
        let sd2 :=
          match localeMarker text with
          | some m => if m ≠ "" then { sd1 with lastLocale := some m } else sd1
          | none => sd1
        { sd2 with buffer := sd2.buffer ++ [text] }

/-! ## Terminal session close events (`app/services/terminal/service.py`)

The close-listener behaviour is modelled as a small trace semantics over the
session registry: `sessions` maps `terminal_id` to the per-session
`command_count`, and `log` records, in order, each firing of the registered
close listeners (every registered listener receives the same payload exactly
when an entry is appended; the payload field modelled is
`commands_executed`). -/

/-- Operations on the terminal service that affect sessions and close events:
session creation, `send_command`, `send_raw`, and a close (explicit API close
and the idle reaper both call `close_terminal`). -/
inductive TermOp where
  | create (tid : String)
  | sendCommand (tid : String)
  | sendRaw (tid : String)
  | close (tid : String)
  deriving DecidableEq, Repr

/-- Terminal service state: live sessions with their `command_count`, and the
ordered record of close-listener firings `(terminal_id, commands_executed)`. -/
structure TermState where
  sessions : List (String × Nat) := []
  log : List (String × Nat) := []
  deriving DecidableEq, Repr

/-- `TerminalService.close_terminal` (service.py lines 171-198): pop the
session — `ValueError` (not found) when absent, with no listener fired —
otherwise fire every registered close listener once with a payload whose
`commands_executed` is the `command_count` of the session. -/
def closeTerminal (st : TermState) (tid : String) :
    Except PyError (TermState × Nat) :=
  match lookupA st.sessions tid with
  | none => .error (.valueError "终端会话不存在")
  | some n =>
      .ok ({ sessions := eraseA st.sessions tid, log := st.log ++ [(tid, n)] }, n)

/-- `TerminalService.send_command` (service.py lines 210-226): `ValueError`
when the session is absent, else increment `command_count` (the channel write
of a live session is modelled as succeeding). -/
def sendCommandOp (st : TermState) (tid : String) : Except PyError TermState :=
  match lookupA st.sessions tid with
  | none => .error (.valueError "终端会话不存在")
  | some n => .ok { st with sessions := insertA st.sessions tid (n + 1) }

/-- `TerminalService.send_raw` (service.py lines 228-242): raw input does not
touch `command_count`. -/
def sendRawOp (st : TermState) (tid : String) : Except PyError TermState :=
  match lookupA st.sessions tid with
  | none => .error (.valueError "终端会话不存在")
  | some _ => .ok st

/-- `TerminalService.create_terminal` (service.py lines 50-129): register a
fresh session with `command_count = 0` (terminal ids are fresh uuids; the
theorems assume each id is created at most once). -/
def createOp (st : TermState) (tid : String) : TermState :=
  { st with sessions := insertA st.sessions tid 0 }

/-- One service step.  Errors raised by an operation propagate to its caller
and leave the registry unchanged (the idle reaper swallows them,
service.py lines 341-345). -/
def termStep (st : TermState) (op : TermOp) : TermState :=
  match op with
  | .create tid => createOp st tid
  | .sendCommand tid =>
      match sendCommandOp st tid with
      | .ok st1 => st1
      | .error _ => st
  | .sendRaw tid =>
      match sendRawOp st tid with
      | .ok st1 => st1
      | .error _ => st
  | .close tid =>
      match closeTerminal st tid with
      | .ok (st1, _) => st1
      | .error _ => st

/-- Run a trace of operations. -/
def termRun (st : TermState) : List TermOp → TermState
  | [] => st
  | op :: ops => termRun (termStep st op) ops

/-- Number of `create tid` operations in a trace. -/
def createsCount (tid : String) : List TermOp → Nat
  | [] => 0
  | .create t :: ops => (if t = tid then 1 else 0) + createsCount tid ops
  | _ :: ops => createsCount tid ops

/-- Number of `send_command` calls on `tid` before the first close of `tid`
(counted from a point where the session is live). -/
def windowSends (tid : String) : List TermOp → Nat
  | [] => 0
  | .close t :: ops => if t = tid then 0 else windowSends tid ops
  | .sendCommand t :: ops => (if t = tid then 1 else 0) + windowSends tid ops
  | _ :: ops => windowSends tid ops

/-- Is there a close of `tid` (from a point where the session is live)? -/
def windowClosed (tid : String) : List TermOp → Bool
  | [] => false
  | .close t :: ops => if t = tid then true else windowClosed tid ops
  | _ :: ops => windowClosed tid ops

/-- The number of `send_command` calls made on session `tid` during its life:
those between its creation and its close. -/
def lifeSends (tid : String) : List TermOp → Nat
  | [] => 0
  | .create t :: ops => if t = tid then windowSends tid ops else lifeSends tid ops
  | _ :: ops => lifeSends tid ops

/-- Is session `tid` created and then closed in the trace? -/
def closedInTrace (tid : String) : List TermOp → Bool
  | [] => false
  | .create t :: ops => if t = tid then windowClosed tid ops else closedInTrace tid ops
  | _ :: ops => closedInTrace tid ops

/-- Spec-side automaton for the `tid`-projection of one step: the
`command_count` (if live) and the close payloads emitted by the step. -/
def specStep (c : Option Nat) (tid : String) (op : TermOp) :
    Option Nat × List Nat :=
  match op with
  | .create t => (if t = tid then some 0 else c, [])
  | .sendCommand t =>
      (if t = tid then (match c with | some n => some (n + 1) | none => none) else c, [])
  | .sendRaw _ => (c, [])
  | .close t =>
      if t = tid then
        match c with
        | some n => (none, [n])
        | none => (none, [])
      else (c, [])

/-- Spec-side automaton over a trace. -/
def specRun (c : Option Nat) (tid : String) : List TermOp → Option Nat × List Nat
  | [] => (c, [])
  | op :: ops =>
      let s1 := specStep c tid op
      let s2 := specRun s1.1 tid ops
      (s2.1, s1.2 ++ s2.2)

/-- The close payloads of the trace recorded for `tid`. -/
def logProj (st : TermState) (tid : String) : List Nat :=
  (st.log.filter (fun e => e.1 = tid)).map (fun e => e.2)

/-! ## Claim theorems -/

/-- `validate` succeeding pins `context_span` into `[0, 50]`. -/
theorem validate_ok_bounds (sp : SearchParams) (h : sp.validate = .ok ()) :
    0 ≤ sp.context_span ∧ sp.context_span ≤ 50 := by
  unfold SearchParams.validate at h
  by_cases h1 : sp.context_span < 0 || sp.context_span > 50
  · simp [h1] at h
  · simp only [Bool.or_eq_true, decide_eq_true_eq, not_or] at h1
    omega

/-- C9: For every `SearchParams` that passes validation and has an empty
keyword, the shell command composed in search mode `keyword` or `context` is
character-for-character identical to the command composed in mode `tail` for
the same quoted file, compression state, decompress stage, reverse flag and
reverse filter: both emit the same bounded recent-lines tail. -/
theorem spec_c9_empty_keyword_degrades_to_tail (sp : SearchParams)
    (quotedFile : String) (isGz : Bool) (decompress : Option String)
    (reverseCmd : String) (hv : sp.validate = .ok ()) (hk : sp.keyword = "")
    (hm : sp.search_mode = "keyword" ∨ sp.search_mode = "context") :
    composeCommand sp quotedFile isGz decompress reverseCmd =
      composeCommand { sp with search_mode := "tail" } quotedFile isGz
        decompress reverseCmd := by
  have hb := validate_ok_bounds sp hv
  have hmax : max SINGLE_HOST_TAIL_RECENT sp.context_span = SINGLE_HOST_TAIL_RECENT := by
    unfold SINGLE_HOST_TAIL_RECENT
    omega
  have hne : sp.search_mode ≠ "tail" := by
    rcases hm with hm | hm <;> simp [hm]
  unfold composeCommand
  simp [hne, hk, hmax]

/-- C9 witness: a concrete validated empty-keyword request in `keyword` mode
produces exactly the `tail`-mode command. -/
theorem spec_c9_witness :
    composeCommand { keyword := "", search_mode := "keyword", context_span := 5 }
        "/var/log/app.log" false none "tac" =
      composeCommand { keyword := "", search_mode := "tail", context_span := 5 }
        "/var/log/app.log" false none "tac" :=
  spec_c9_empty_keyword_degrades_to_tail
    { keyword := "", search_mode := "keyword", context_span := 5 }
    "/var/log/app.log" false none "tac" rfl rfl (Or.inl rfl)

/-- Invalid parameters make `validate` raise `ValueError`. -/
theorem validate_fails (sp : SearchParams)
    (h : sp.context_span < 0 ∨ sp.context_span > 50 ∨
      ¬(sp.search_mode = "keyword" ∨ sp.search_mode = "context" ∨
        sp.search_mode = "tail")) :
    ∃ m, sp.validate = .error (.valueError m) := by
  unfold SearchParams.validate
  have hcases : (sp.context_span < 0 || sp.context_span > 50) = true ∨
      (["keyword", "context", "tail"].contains sp.search_mode) = false := by
    rcases h with h | h | h
    · left; simp [h]
    · left; simp [h]
    · right; simpa using h
  rcases hcases with hx | hx
  · simp only [hx]
    by_cases hy : (["keyword", "context", "tail"].contains sp.search_mode) = true
    · simp [hy]
    · simp [Bool.not_eq_true] at hy
      simp [hy]
  · simp only [hx]
    by_cases hy : (sp.context_span < 0 || sp.context_span > 50) = true
    · simp [hy]
    · simp [Bool.not_eq_true] at hy
      simp [hy]

/-- C3: For every `SearchParams` whose `context_span` lies outside `[0, 50]`
or whose `search_mode` is not one of the three valid modes, validation raises
`ValueError`, and `search_multi_host` raises it before any state change —
in particular the world (and hence the trace of connection attempts and
remote commands) is untouched: validation happens before any command is
built and before any network call. -/
theorem spec_c3_validation_precedes_network (remote : Remote)
    (logConfig : LogConfig) (sp : SearchParams) (order : List Nat) (w : World)
    (h : sp.context_span < 0 ∨ sp.context_span > 50 ∨
      ¬(sp.search_mode = "keyword" ∨ sp.search_mode = "context" ∨
        sp.search_mode = "tail")) :
    ∃ m, searchMultiHost remote logConfig sp order w =
      (.error (.valueError m), w) := by
  obtain ⟨m, hm⟩ := validate_fails sp h
  refine ⟨m, ?_⟩
  unfold searchMultiHost
  rw [hm]

/-- C3 witness: a concrete out-of-range `context_span` (and bad mode) fails
validation with the world untouched. -/
theorem spec_c3_witness :
    ∃ m, searchMultiHost
        { connectOk := fun _ => true, alive := fun _ => true,
          exec := fun _ _ => ("", "", 0) }
        { name := "applog", sshs := [{ host := "10.0.0.1", username := "ops" }] }
        { keyword := "x", search_mode := "fuzzy", context_span := 100 }
        [0] {} =
      (.error (.valueError m), {}) :=
  spec_c3_validation_precedes_network _ _ _ _ _ (Or.inr (Or.inl (by decide)))

/-- C5: For every terminal output-reader chunk: `_smart_decode_chunk` passes
the keyword arguments `last_good` and `forced`, which `smart_decode` does not
accept, so the decode call raises `TypeError` for every input (whatever the
body of `smart_decode` would do), and the blanket handler of the reader swallows
it — a non-empty received chunk is never decoded and never appended: the
session (in particular its output buffer) is left unchanged. -/
theorem spec_c5_reader_chunk_never_buffered
    (impl : List Nat → Except PyError (String × String)) (sd : SessionData)
    (data : List Nat) (lastGood : String) (forced : Option String)
    (h : data ≠ []) :
    smartDecodeChunk impl data lastGood forced =
      .error (.typeError ("smart_decode() got an unexpected keyword argument "
        ++ sq ++ "last_good" ++ sq)) ∧
    outputReaderChunkStep impl sd data = sd := by
  constructor
  · rfl
  · cases data with
    | nil => exact absurd rfl h
    | cons x xs => rfl

/-- C5 witness: a concrete two-byte chunk with a concrete would-be decoder is
rejected with `TypeError` and the buffer stays unchanged. -/
theorem spec_c5_witness :
    smartDecodeChunk (fun _ => .ok ("hi", "utf-8")) [104, 105] "utf-8" none =
      .error (.typeError ("smart_decode() got an unexpected keyword argument "
        ++ sq ++ "last_good" ++ sq)) ∧
    outputReaderChunkStep (fun _ => .ok ("hi", "utf-8"))
      { buffer := ["old"] } [104, 105] = { buffer := ["old"] } :=
  spec_c5_reader_chunk_never_buffered (fun _ => .ok ("hi", "utf-8"))
    { buffer := ["old"] } [104, 105] "utf-8" none (by decide)

/-- A connection handle for the resolver scenarios. -/
def resolverConn : Conn := { cid := 0, key := "10.0.0.1:22:ops" }

/-- The directory-existence probe the resolver issues for the working
directory `.` (filename_resolver.py line 78). -/
def dotDirCheckCmd : String :=
  "test -d " ++ sq ++ "." ++ sq ++ " && echo " ++ sq ++ "dir_exists" ++ sq ++
    " || echo " ++ sq ++ "dir_not_exists" ++ sq

/-- The listing command the resolver issues for a glob in `.`
(filename_resolver.py line 84). -/
def dotFindCmd (glob : String) : String :=
  "find " ++ sq ++ "." ++ sq ++ " -maxdepth 1 -name " ++ sq ++ glob ++ sq ++
    " -type f 2>/dev/null || true"

/-- A remote whose current directory contains exactly the plain files
`listing`: the directory probe answers `dir_exists` and `find` prints the
`./`-prefixed names matching the glob, exactly as POSIX `find -name` would. -/
def dirOracle (glob : String) (listing : List String) : Remote :=
  { connectOk := fun _ => true, alive := fun _ => true,
    exec := fun _ cmd =>
      if cmd = dotDirCheckCmd then ("dir_exists", "", 0)
      else if cmd = dotFindCmd glob then (findOutput "." glob listing, "", 0)
      else ("", "", 1) }

/-- C7 counterexample: for the pattern `app-{YYYY}-{MM}-{DD}-{N}.log` at
reference date 2025-09-08 with the remote directory containing **only**
`app-2025-09-08.3.log`, `resolve_filename` returns the `N=0` default path
`app-2025-09-08-0.log` — not that existing file: the `.3.` slice
separator of the file cannot match the dash-separated shape of the pattern, so the glob
`app-2025-09-08-*.log` matches nothing and the default wins.  The claim as
stated is therefore false at this input. -/
theorem spec_c7_counterexample :
    (resolveFilename (dirOracle "app-2025-09-08-*.log" ["app-2025-09-08.3.log"])
        (some resolverConn) "app-{YYYY}-{MM}-{DD}-{N}.log"
        (some (2025, 9, 8)) {}).1 = .ok "app-2025-09-08-0.log" ∧
    ("app-2025-09-08-0.log" : String) ≠ "app-2025-09-08.3.log" := by
  exact ⟨rfl, by decide⟩

/-- C7 amended: with only `app-2025-09-08.3.log` present the resolver falls
back to the `N=0` default (previous theorem); a directory containing instead
the pattern-conformant `app-2025-09-08-3.log` resolves to that existing file
(as the `./`-prefixed path `find` prints), not to the `N=0` default. -/
theorem spec_c7_amended :
    (resolveFilename (dirOracle "app-2025-09-08-*.log" ["app-2025-09-08-3.log"])
        (some resolverConn) "app-{YYYY}-{MM}-{DD}-{N}.log"
        (some (2025, 9, 8)) {}).1 = .ok "./app-2025-09-08-3.log" ∧
    osPathBasename "./app-2025-09-08-3.log" ≠ "app-2025-09-08-0.log" := by
  exact ⟨rfl, by decide⟩

/-- C8 counterexample: resolving the duplicate-`{N}` pattern `app-{N}-{N}.log`
does **not** raise a validation error: `resolve_filename` substitutes every
`{N}` and issues two remote commands (the directory probe and the listing) —
returning the doubled default `app-0-0.log` here — because nothing on the
resolve path invokes `validate_log_filename_pattern`.  The claim that a
validation error is raised before any remote command is false at this input. -/
theorem spec_c8_counterexample :
    (resolveFilename (dirOracle "app-*-*.log" []) (some resolverConn)
        "app-{N}-{N}.log" (some (2025, 9, 8)) {}).1 = .ok "app-0-0.log" ∧
    (resolveFilename (dirOracle "app-*-*.log" []) (some resolverConn)
        "app-{N}-{N}.log" (some (2025, 9, 8)) {}).2.trace =
      [("10.0.0.1:22:ops", dotDirCheckCmd),
       ("10.0.0.1:22:ops", dotFindCmd "app-*-*.log")] := by
  exact ⟨rfl, rfl⟩

/-- C8 amended: the duplicate-`{N}` check lives only in the standalone
`validate_log_filename_pattern`, which does flag such patterns; `resolve_filename`
itself never calls it — it treats each `{N}` as a wildcard, executes remote
listing commands, and returns without error. -/
theorem spec_c8_amended :
    validateLogFilenamePattern "app-{N}-{N}.log" =
      (false, ["切片占位符{N}只能出现一次，当前出现了2次"]) ∧
    (resolveFilename (dirOracle "app-*-*.log" []) (some resolverConn)
        "app-{N}-{N}.log" (some (2025, 9, 8)) {}).1 = .ok "app-0-0.log" ∧
    ((resolveFilename (dirOracle "app-*-*.log" []) (some resolverConn)
        "app-{N}-{N}.log" (some (2025, 9, 8)) {}).2.trace).length = 2 := by
  exact ⟨rfl, rfl, rfl⟩

/-- Dict write then read of the same key. -/
theorem lookupA_insertA_self {α : Type} (l : List (String × α)) (k : String)
    (v : α) : lookupA (insertA l k v) k = some v := by
  simp [lookupA, insertA, List.find?]

/-- A successful `connect` yields a connected instance. -/
theorem sshConnect_some (remote : Remote) (cfg : SSHConfig) (w : World)
    (c : Conn) (w3 : World) (h : sshConnect remote cfg w = (some c, w3)) :
    c.connected = true := by
  unfold sshConnect at h
  by_cases hc : remote.connectOk (connectionKey cfg) = true
  · simp only [hc, if_true] at h
    cases h
    rfl
  · simp only [Bool.not_eq_true] at hc
    simp only [hc, Bool.false_eq_true, if_false] at h
    cases h

/-- A connection returned by the miss path is stored in the pool under the
endpoint key and is connected. -/
theorem getConnectionMiss_stores (remote : Remote) (cfg : SSHConfig)
    (w w1 : World) (c : Conn)
    (h : getConnectionMiss remote cfg w = (some c, w1)) :
    lookupA w1.pool (connectionKey cfg) = some c ∧ c.connected = true := by
  unfold getConnectionMiss at h
  rcases hs : sshConnect remote cfg
      (if w.pool.length ≥ maxConnections then cleanupOldConnections remote w
       else w) with ⟨copt, w3⟩
  rw [hs] at h
  cases copt with
  | some c0 =>
      cases h
      exact ⟨lookupA_insertA_self _ _ _, sshConnect_some _ _ _ _ _ hs⟩
  | none => cases h

/-- A connection returned by `get_connection` is stored in the pool under the
endpoint key and is connected. -/
theorem getConnection_stores (remote : Remote) (cfg : SSHConfig)
    (w w1 : World) (c : Conn)
    (h : getConnection remote cfg w = (some c, w1)) :
    lookupA w1.pool (connectionKey cfg) = some c ∧ c.connected = true := by
  unfold getConnection at h
  rcases hl : lookupA w.pool (connectionKey cfg) with _ | c0
  · rw [hl] at h
    exact getConnectionMiss_stores _ _ _ _ _ h
  · rw [hl] at h
    by_cases halive : isAlive remote c0 = true
    · simp only [halive, if_true] at h
      cases h
      refine ⟨hl, ?_⟩
      unfold isAlive at halive
      exact (Bool.and_eq_true _ _ |>.mp halive).1
    · simp only [Bool.not_eq_true] at halive
      simp only [halive, Bool.false_eq_true, if_false] at h
      exact getConnectionMiss_stores _ _ _ _ _ h

/-- C6: If `get_connection` returns a connection for an endpoint and that
transport of that connection is still alive when `get_connection` is called again for
the same endpoint key, the second call returns the exact same connection
instance and leaves the world unchanged — no new connection, pool entry,
cache entry or remote call is created. -/
theorem spec_c6_get_connection_idempotent_alive (remote remote2 : Remote)
    (cfg : SSHConfig) (w w1 : World) (c : Conn)
    (h1 : getConnection remote cfg w = (some c, w1))
    (h2 : remote2.alive c.cid = true) :
    getConnection remote2 cfg w1 = (some c, w1) := by
  obtain ⟨hl, hc⟩ := getConnection_stores remote cfg w w1 c h1
  unfold getConnection
  rw [hl]
  simp [isAlive, hc, h2]

/-- Remote used by the C6 witness. -/
def c6Remote : Remote :=
  { connectOk := fun _ => true, alive := fun _ => true, exec := fun _ _ => ("", "", 0) }

/-- Endpoint used by the C6 witness. -/
def c6Cfg : SSHConfig := { host := "10.0.0.1", username := "ops" }

/-- The pooled live connection of the C6 witness. -/
def c6Conn : Conn := { cid := 7, key := "10.0.0.1:22:ops", remoteEncoding := some "utf-8" }

/-- World of the C6 witness: the pool already holds the live connection. -/
def c6World : World := { pool := [("10.0.0.1:22:ops", c6Conn)] }

/-- C6 witness: a pool holding a live connection for `10.0.0.1:22:ops` returns
that very instance with the world untouched. -/
theorem spec_c6_witness :
    getConnection c6Remote c6Cfg c6World = (some c6Conn, c6World) :=
  spec_c6_get_connection_idempotent_alive c6Remote c6Remote c6Cfg c6World
    c6World c6Conn (by decide) (by decide)

/-- Host A of the multi-host scenario (its connection succeeds). -/
def logHostA : SSHConfig :=
  { host := "10.0.0.1", username := "ops", path := some "/var/log/app.log" }

/-- Host B of the multi-host scenario (its authentication fails). -/
def logHostB : SSHConfig :=
  { host := "10.0.0.2", username := "ops", path := some "/var/log/app.log" }

/-- Remote oracle of the search scenarios: host A authenticates, reports a
UTF-8 locale, has `tac`, and its log contains five `ERROR` matches; host B
refuses authentication. -/
def scenarioRemote : Remote :=
  { connectOk := fun k => k = "10.0.0.1:22:ops",
    alive := fun _ => true,
    exec := fun _ cmd =>
      if cmd = "locale | grep LC_CTYPE" then ("LC_CTYPE=\"en_US.UTF-8\"", "", 0)
      else if cmd = "which tac" then ("/usr/bin/tac", "", 0)
      else if cmd = "grep -nF ERROR /var/log/app.log | head -n 10000" then
        ("1:alpha\n2:beta\n3:gamma\n4:delta\n5:epsilon", "", 0)
      else if cmd = "grep -nF ERROR /var/log/app.log | tail -n 10000 | tac" then
        ("3:gamma\n2:beta\n1:alpha", "", 0)
      else ("", "", 1) }

/-- C1 (code bug evaluation): the two-host scenario of the claim — host A
would return 5 matches, authentication on host B fails, tasks complete B-first
— does not produce a `MultiHostSearchResult` at all: `search_multi_host`
raises an untyped `TypeError`, because the constructor call at search.py line
136 passes `aggregated_truncation`, a keyword the dataclass does not accept
(and the per-host search on host A already failed on the missing
`SearchParams.max_lines` attribute, so it would not have carried its 5
matches either). -/
theorem spec_c1_code_bug_eval :
    (searchMultiHost scenarioRemote { name := "applog", sshs := [logHostA, logHostB] }
        { keyword := "ERROR" } [1, 0] {}).1 =
      .error (.typeError ("MultiHostSearchResult() got an unexpected keyword argument "
        ++ sq ++ "aggregated_truncation" ++ sq)) := by
  rfl

/-- C4 (code bug evaluation): a validated single-host request — `validate`
succeeds — still terminates in an untyped `TypeError` from the
`MultiHostSearchResult` constructor call, outside the five-kind error
taxonomy. -/
theorem spec_c4_code_bug_eval :
    ({ keyword := "ERROR" } : SearchParams).validate = .ok () ∧
    (searchMultiHost scenarioRemote { name := "applog", sshs := [logHostA] }
        { keyword := "ERROR" } [0] {}).1 =
      .error (.typeError ("MultiHostSearchResult() got an unexpected keyword argument "
        ++ sq ++ "aggregated_truncation" ++ sq)) := by
  exact ⟨rfl, rfl⟩

/-- C2 (code bug evaluation): the `max_lines` attribute read raises
`AttributeError` — `SearchParams` declares no such field — so the single-host
search of the claim (a reverse-order search whose command yields three
matches on host A) never reaches the truncation logic: the blanket handler
converts the error into a failed per-host result with no lines, no truncation
flag and no counts. -/
theorem spec_c2_code_bug_eval :
    SearchParams.maxLinesAttr { keyword := "ERROR", reverse_order := true } =
      .error (.attributeError ("SearchParams object has no attribute "
        ++ sq ++ "max_lines" ++ sq)) ∧
    (searchSingleHost scenarioRemote logHostA "/var/log/app.log"
        { keyword := "ERROR", reverse_order := true } 0 {}).1 =
      { host := "10.0.0.1", ssh_index := 0, results := [], total_results := 0,
        search_time := 0,
        search_result := { content := "", file_path := "", keyword := "ERROR",
                           total_lines := 0, search_time := 0, matches_ := [] },
        success := false,
        error := some ("SearchParams object has no attribute "
          ++ sq ++ "max_lines" ++ sq) } := by
  exact ⟨rfl, rfl⟩

/-- Dict read over a cons cell. -/
theorem lookupA_cons {α : Type} (p : String × α) (l : List (String × α))
    (k : String) :
    lookupA (p :: l) k = if p.1 = k then some p.2 else lookupA l k := by
  by_cases hp : p.1 = k <;> simp [lookupA, List.find?, hp]

/-- Dict delete then read. -/
theorem lookupA_eraseA {α : Type} (l : List (String × α)) (k k1 : String) :
    lookupA (eraseA l k) k1 = if k1 = k then none else lookupA l k1 := by
  induction l with
  | nil => by_cases h : k1 = k <;> simp [lookupA, eraseA, List.find?, h]
  | cons p rest ih =>
      by_cases hp : p.1 = k
      · have he : eraseA (p :: rest) k = eraseA rest k := by
          simp [eraseA, List.filter, hp]
        rw [he, ih]
        by_cases h : k1 = k
        · simp [h]
        · have hne : p.1 ≠ k1 := by rw [hp]; exact fun hx => h hx.symm
          simp [h, lookupA_cons, hne]
      · have he : eraseA (p :: rest) k = p :: eraseA rest k := by
          simp [eraseA, List.filter, hp]
        rw [he, lookupA_cons, lookupA_cons, ih]
        by_cases hq : p.1 = k1
        · have h : ¬k1 = k := fun hx => hp (by rw [hq, hx])
          simp [hq, h]
        · simp [hq]

/-- Dict write then read. -/
theorem lookupA_insertA {α : Type} (l : List (String × α)) (k k1 : String)
    (v : α) :
    lookupA (insertA l k v) k1 = if k1 = k then some v else lookupA l k1 := by
  unfold insertA
  rw [lookupA_cons, lookupA_eraseA]
  by_cases h : k1 = k
  · simp [h]
  · have h2 : ¬k = k1 := fun hx => h hx.symm
    simp [h, h2]

/-- Unfolding equation of `termRun` on a cons. -/
theorem termRun_cons (st : TermState) (op : TermOp) (ops : List TermOp) :
    termRun st (op :: ops) = termRun (termStep st op) ops := rfl

/-- Unfolding equation of `specRun` on a cons. -/
theorem specRun_cons (c : Option Nat) (tid : String) (op : TermOp)
    (ops : List TermOp) :
    specRun c tid (op :: ops) =
      ((specRun (specStep c tid op).1 tid ops).1,
       (specStep c tid op).2 ++ (specRun (specStep c tid op).1 tid ops).2) := rfl

/-- One-step simulation: the `tid`-projection of `termStep` is `specStep`. -/
theorem termStep_proj (st : TermState) (op : TermOp) (tid : String) :
    lookupA (termStep st op).sessions tid =
      (specStep (lookupA st.sessions tid) tid op).1 ∧
    logProj (termStep st op) tid =
      logProj st tid ++ (specStep (lookupA st.sessions tid) tid op).2 := by
  cases op with
  | create t =>
      by_cases ht : t = tid
      · subst ht
        simp [termStep, createOp, specStep, logProj, lookupA_insertA]
      · have ht2 : ¬tid = t := fun hx => ht hx.symm
        simp [termStep, createOp, specStep, logProj, ht, ht2, lookupA_insertA]
  | sendCommand t =>
      by_cases ht : t = tid
      · subst ht
        rcases hl : lookupA st.sessions t with _ | n <;>
          simp [termStep, sendCommandOp, specStep, logProj, hl, lookupA_insertA]
      · have ht2 : ¬tid = t := fun hx => ht hx.symm
        rcases hl : lookupA st.sessions t with _ | n <;>
          simp [termStep, sendCommandOp, specStep, logProj, hl, ht, ht2,
            lookupA_insertA]
  | sendRaw t =>
      rcases hl : lookupA st.sessions t with _ | n <;>
        simp [termStep, sendRawOp, specStep, logProj, hl]
  | close t =>
      by_cases ht : t = tid
      · subst ht
        rcases hl : lookupA st.sessions t with _ | n <;>
          simp [termStep, closeTerminal, specStep, logProj, hl, lookupA_eraseA,
            List.filter_append]
      · have ht2 : ¬tid = t := fun hx => ht hx.symm
        rcases hl : lookupA st.sessions t with _ | n <;>
          simp [termStep, closeTerminal, specStep, logProj, hl, ht, ht2,
            lookupA_eraseA, List.filter_append]

/-- Trace simulation: the `tid`-projection of a run is computed by `specRun`
from the starting projection of the session. -/
theorem termRun_proj (tid : String) (ops : List TermOp) :
    ∀ st : TermState,
      lookupA (termRun st ops).sessions tid =
        (specRun (lookupA st.sessions tid) tid ops).1 ∧
      logProj (termRun st ops) tid =
        logProj st tid ++ (specRun (lookupA st.sessions tid) tid ops).2 := by
  induction ops with
  | nil => intro st; simp [termRun, specRun]
  | cons op rest ih =>
      intro st
      obtain ⟨hs1, hs2⟩ := termStep_proj st op tid
      obtain ⟨ha, hb⟩ := ih (termStep st op)
      rw [termRun_cons, specRun_cons]
      constructor
      · rw [ha, hs1]
      · rw [hb, hs2, hs1]
        simp [List.append_assoc]

/-- With no creation of `tid`, a dead (`none`) projection stays dead and emits
nothing. -/
theorem specRun_none_of_no_create (tid : String) (ops : List TermOp)
    (h : createsCount tid ops = 0) : specRun none tid ops = (none, []) := by
  induction ops with
  | nil => rfl
  | cons op rest ih =>
      cases op with
      | create t =>
          by_cases ht : t = tid
          · subst ht
            simp [createsCount] at h
          · simp only [createsCount, ht, ite_false] at h
            simp [specRun_cons, specStep, ht, ih (by omega)]
      | sendCommand t =>
          simp only [createsCount] at h
          by_cases ht : t = tid <;> simp [specRun_cons, specStep, ht, ih h]
      | sendRaw t =>
          simp only [createsCount] at h
          simp [specRun_cons, specStep, ih h]
      | close t =>
          simp only [createsCount] at h
          by_cases ht : t = tid <;> simp [specRun_cons, specStep, ht, ih h]

/-- With no creation of `tid`, a live projection counts exactly the
`send_command` calls of the window and emits exactly one payload if and when the window
closes. -/
theorem specRun_some_window (tid : String) (ops : List TermOp) :
    ∀ n, createsCount tid ops = 0 →
      specRun (some n) tid ops =
        (if windowClosed tid ops then none else some (n + windowSends tid ops),
         if windowClosed tid ops then [n + windowSends tid ops] else []) := by
  induction ops with
  | nil => intro n _; simp [specRun, windowClosed, windowSends]
  | cons op rest ih =>
      intro n h
      cases op with
      | create t =>
          by_cases ht : t = tid
          · subst ht
            simp [createsCount] at h
          · simp only [createsCount, ht, ite_false] at h
            simp [specRun_cons, specStep, ht, ih n (by omega), windowClosed,
              windowSends]
      | sendCommand t =>
          simp only [createsCount] at h
          by_cases ht : t = tid
          · subst ht
            rw [specRun_cons]
            simp only [specStep, eq_self_iff_true, if_true]
            rw [ih (n + 1) h]
            simp only [windowClosed, windowSends, eq_self_iff_true, if_true]
            by_cases hw : windowClosed t rest = true <;>
              simp [hw, Nat.add_assoc, Nat.add_comm, Nat.add_left_comm]
          · simp [specRun_cons, specStep, ht, ih n h, windowClosed, windowSends]
      | sendRaw t =>
          simp only [createsCount] at h
          simp [specRun_cons, specStep, ih n h, windowClosed, windowSends]
      | close t =>
          simp only [createsCount] at h
          by_cases ht : t = tid
          · subst ht
            rw [specRun_cons]
            simp only [specStep, eq_self_iff_true, if_true]
            rw [specRun_none_of_no_create t rest h]
            simp [windowClosed, windowSends]
          · simp [specRun_cons, specStep, ht, ih n h, windowClosed, windowSends]

/-- Created at most once, the projection emits exactly the life payload when
the session is closed, else nothing, and is dead after a close. -/
theorem specRun_life (tid : String) (ops : List TermOp)
    (h : createsCount tid ops ≤ 1) :
    (specRun none tid ops).2 =
      (if closedInTrace tid ops then [lifeSends tid ops] else []) ∧
    (closedInTrace tid ops = true → (specRun none tid ops).1 = none) := by
  induction ops with
  | nil => simp [specRun, closedInTrace]
  | cons op rest ih =>
      cases op with
      | create t =>
          by_cases ht : t = tid
          · subst ht
            have h0 : createsCount t rest = 0 := by
              simp only [createsCount, eq_self_iff_true, if_true] at h
              omega
            rw [specRun_cons]
            simp only [specStep, eq_self_iff_true, if_true]
            rw [specRun_some_window t rest 0 h0]
            simp only [closedInTrace, lifeSends, eq_self_iff_true, if_true]
            by_cases hw : windowClosed t rest = true <;> simp [hw]
          · simp only [createsCount, ht, ite_false] at h
            obtain ⟨iha, ihb⟩ := ih (by omega)
            rw [specRun_cons]
            simp only [specStep, ht, ite_false]
            exact ⟨by simpa [closedInTrace, lifeSends, ht] using iha,
              fun hcl => by
                simpa using ihb (by simpa [closedInTrace, ht] using hcl)⟩
      | sendCommand t =>
          simp only [createsCount] at h
          obtain ⟨iha, ihb⟩ := ih h
          rw [specRun_cons]
          by_cases ht : t = tid
          · subst ht
            simp only [specStep, eq_self_iff_true, if_true]
            exact ⟨by simpa [closedInTrace, lifeSends] using iha,
              fun hcl => by
                simpa using ihb (by simpa [closedInTrace] using hcl)⟩
          · simp only [specStep, ht, ite_false]
            exact ⟨by simpa [closedInTrace, lifeSends, ht] using iha,
              fun hcl => by
                simpa using ihb (by simpa [closedInTrace, ht] using hcl)⟩
      | sendRaw t =>
          simp only [createsCount] at h
          obtain ⟨iha, ihb⟩ := ih h
          rw [specRun_cons]
          simp only [specStep]
          exact ⟨by simpa [closedInTrace, lifeSends] using iha,
            fun hcl => by simpa using ihb (by simpa [closedInTrace] using hcl)⟩
      | close t =>
          simp only [createsCount] at h
          obtain ⟨iha, ihb⟩ := ih h
          rw [specRun_cons]
          by_cases ht : t = tid
          · subst ht
            simp only [specStep, eq_self_iff_true, if_true]
            exact ⟨by simpa [closedInTrace, lifeSends] using iha,
              fun hcl => by
                simpa using ihb (by simpa [closedInTrace] using hcl)⟩
          · simp only [specStep, ht, ite_false]
            exact ⟨by simpa [closedInTrace, lifeSends, ht] using iha,
              fun hcl => by
                simpa using ihb (by simpa [closedInTrace, ht] using hcl)⟩

/-- C10: In every operation trace in which a terminal id is created at most
once (ids are fresh uuids), the close listeners fire exactly once for that
session if it is closed — explicitly or by the idle reaper — and never
otherwise; the `commands_executed` of the fired payload equals the number of
`send_command` calls made on the session during its life (`send_raw` input is
not counted); and once closed, a further `close_terminal` for the same id
raises the not-found `ValueError` and fires no listener. -/
theorem spec_c10_close_listener_exactly_once (ops : List TermOp) (tid : String)
    (h : createsCount tid ops ≤ 1) :
    logProj (termRun {} ops) tid =
      (if closedInTrace tid ops then [lifeSends tid ops] else []) ∧
    (closedInTrace tid ops = true →
      closeTerminal (termRun {} ops) tid =
        .error (.valueError "终端会话不存在")) := by
  obtain ⟨ha, hb⟩ := termRun_proj tid ops {}
  obtain ⟨h2a, h2b⟩ := specRun_life tid ops h
  have hinit : lookupA ({} : TermState).sessions tid = none := rfl
  rw [hinit] at ha hb
  constructor
  · rw [hb, h2a]
    simp [logProj]
  · intro hcl
    have hnone : lookupA (termRun {} ops).sessions tid = none := by
      rw [ha]; exact h2b hcl
    unfold closeTerminal
    rw [hnone]

/-- C10 witness: a session with two `send_command` calls and one `send_raw`,
closed twice, fires exactly one close event with `commands_executed = 2`, and
the second close raises not-found. -/
theorem spec_c10_witness :
    logProj (termRun {} [TermOp.create "t1", TermOp.sendCommand "t1",
      TermOp.sendCommand "t1", TermOp.sendRaw "t1", TermOp.close "t1",
      TermOp.close "t1"]) "t1" = [2] ∧
    closeTerminal (termRun {} [TermOp.create "t1", TermOp.sendCommand "t1",
      TermOp.sendCommand "t1", TermOp.sendRaw "t1", TermOp.close "t1",
      TermOp.close "t1"]) "t1" = .error (.valueError "终端会话不存在") := by
  have h := spec_c10_close_listener_exactly_once [TermOp.create "t1",
    TermOp.sendCommand "t1", TermOp.sendCommand "t1", TermOp.sendRaw "t1",
    TermOp.close "t1", TermOp.close "t1"] "t1" (by decide)
  obtain ⟨h1, h2⟩ := h
  refine ⟨?_, h2 (by decide)⟩
  rw [h1]
  decide

end LogTool
